import Mathlib

/-!
A shallow embedding of the text-layout engine of `Handwrite.py`
(text-to-handwriting converter).  Pixel measurement of a string by a font
(`draw.textbbox`) is abstracted as explicit width/height measure functions;
Python strings are Lean `String`s manipulated through character lists so that
all operations are kernel-computable; the Python `set` of drawn lines is a
`Finset String`; drawing on the PIL canvas is recorded as a list of
`DrawCall`s; `st.error(...)` followed by `return None` is an `Except.error`
carrying the reported message.
-/

namespace Handwrite

/-- Python whitespace characters recognised by `str.split()` / `str.strip()`
(ASCII subset; the inputs considered here are ASCII). -/
def isPySpace (c : Char) : Bool :=
  c = ' ' || c = '\t' || c = '\n' || c = '\r' || c = '\x0b' || c = '\x0c'

/-- Python `s.strip()`: drop leading and trailing whitespace. -/
def pyStrip (s : String) : String :=
  ⟨((s.data.dropWhile isPySpace).reverse.dropWhile isPySpace).reverse⟩

/-- Helper for `splitLines`: split a character list at newline characters,
keeping empty pieces (Python `str.split('\n')` semantics). -/
def splitLinesAux : List Char → List Char → List String
  | [], cur => [⟨cur.reverse⟩]
  | c :: rest, cur =>
    if c = '\n' then ⟨cur.reverse⟩ :: splitLinesAux rest []
    else splitLinesAux rest (c :: cur)

/-- Python `text.split('\n')`. -/
def splitLines (s : String) : List String :=
  splitLinesAux s.data []

/-- Helper for `pySplitWs`: split at whitespace runs, dropping empty tokens. -/
def splitWsAux : List Char → List Char → List String
  | [], [] => []
  | [], cur => [⟨cur.reverse⟩]
  | c :: rest, cur =>
    if isPySpace c then
      (if cur = [] then splitWsAux rest [] else ⟨cur.reverse⟩ :: splitWsAux rest [])
    else splitWsAux rest (c :: cur)

/-- Python `line.split()`: whitespace-delimited words, empties dropped. -/
def pySplitWs (s : String) : List String :=
  splitWsAux s.data []

/-- Python `s.startswith(pre)`. -/
def pyStartsWith (s pre : String) : Bool :=
  pre.data.isPrefixOf s.data

/-- Python `s.endswith(suf)`. -/
def pyEndsWith (s suf : String) : Bool :=
  suf.data.isSuffixOf s.data

/-- Python `s[n:]` (character indexing). -/
def pyDrop (s : String) (n : Nat) : String :=
  ⟨s.data.drop n⟩

/-- Python `s[:-n]` (character indexing). -/
def pyDropRight (s : String) (n : Nat) : String :=
  ⟨s.data.take (s.data.length - n)⟩

/-- Python `sep.join(xs)`. -/
def joinWith (sep : String) : List String → String
  | [] => ""
  | [x] => x
  | x :: xs => x ++ sep ++ joinWith sep xs

/-- The inner word loop of `split_text_into_lines` (Handwrite.py lines 46-52):
greedily accumulate words onto `cur`; when the candidate line including the
next word measures over `maxWidth`, the word is rolled back, the line without
it is flushed onto `acc`, and a fresh current line starts with that word. -/
def procWords (measure : String → Nat) (maxWidth : Nat) :
    List String → List String → List String → List String × List String
  | acc, cur, [] => (acc, cur)
  | acc, cur, w :: ws =>
    if measure (joinWith " " (cur ++ [w])) > maxWidth then
      procWords measure maxWidth (acc ++ [joinWith " " cur]) [w] ws
    else
      procWords measure maxWidth acc (cur ++ [w]) ws

/-- One iteration of the paragraph loop of `split_text_into_lines`
(Handwrite.py lines 34-55).  State is `(lines, current_line)`.  Note that the
end-of-paragraph flush appends the residual words but does NOT clear
`current_line`, exactly as in the source. -/
def wrapStep (measure : String → Nat) (maxWidth : Nat)
    (st : List String × List String) (line : String) : List String × List String :=
  if pyStrip line = "" then
    (st.1 ++ [""], st.2)
  else if pyStartsWith line "## " then
    ((if st.2 = [] then st.1 else st.1 ++ [joinWith " " st.2]) ++ [pyDrop line 3], [])
  else
    (let r := procWords measure maxWidth st.1 st.2 (pySplitWs line)
     if r.2 = [] then r else (r.1 ++ [joinWith " " r.2], r.2))

/-- `split_text_into_lines(draw, text, max_width, font)` (Handwrite.py
lines 29-57), with `draw`/`font` abstracted into the width measure. -/
def split_text_into_lines (measure : String → Nat) (text : String)
    (maxWidth : Nat) : String :=
  joinWith "\n" ((splitLines text).foldl (wrapStep measure maxWidth) ([], [])).1

/-- The line loop of `text_fits_on_page` (Handwrite.py lines 19-27):
running height accumulation with short-circuit failure. -/
def fitsGo (measW measH : String → Nat) (maxWidth maxHeight : Nat) :
    Nat → List String → Bool
  | _, [] => true
  | cur, l :: ls =>
    if measW l > maxWidth || cur + measH l > maxHeight then false
    else fitsGo measW measH maxWidth maxHeight (cur + measH l + 8) ls

/-- `text_fits_on_page(draw, text, font, max_width, max_height)`
(Handwrite.py lines 17-27). -/
def text_fits_on_page (measW measH : String → Nat) (text : String)
    (maxWidth maxHeight : Nat) : Bool :=
  fitsGo measW measH maxWidth maxHeight 0 (splitLines text)

/-- The size-descent loop of `adjust_font_size` (Handwrite.py lines 61-68):
try the current size, else decrement; give up once the size is ≤ 10.  The
measures are indexed by the candidate font size (the font loaded at that
size); a successful font load is assumed, as in the only call site where the
font path has already been validated. -/
def adjustGo (measW measH : Nat → String → Nat) (text : String)
    (maxWidth maxHeight : Nat) : Nat → Option (String × Nat)
  | 0 => none
  | n + 1 =>
    if n + 1 > 10 then
      (if text_fits_on_page (measW (n + 1)) (measH (n + 1))
          (split_text_into_lines (measW (n + 1)) text (maxWidth - 200))
          (maxWidth - 200) (maxHeight - 200) then
        some (split_text_into_lines (measW (n + 1)) text (maxWidth - 200), n + 1)
      else adjustGo measW measH text maxWidth maxHeight n)
    else none

/-- `adjust_font_size(draw, text, font_path, max_width, max_height)`
(Handwrite.py lines 59-68).  `none` models the `("", None)` failure return. -/
def adjust_font_size (measW measH : Nat → String → Nat) (text : String)
    (maxWidth maxHeight : Nat) : Option (String × Nat) :=
  adjustGo measW measH text maxWidth maxHeight 60

/-- One `draw.text(...)` call recorded during rendering: the drawn string,
the size of the font used (the only observable distinction between the
heading font and the body font here), and the pen position. -/
structure DrawCall where
  text : String
  fontSize : Nat
  x : Nat
  y : Nat
deriving DecidableEq

/-- The mutable state of the loop in `draw_text`: the cursor `y`, the
`drawn_lines` set (aliasing the caller's `previous_lines` set), the
`previous_line` string, and the draw calls issued so far. -/
structure DrawState where
  y : Nat
  drawn : Finset String
  previousLine : String
  calls : List DrawCall
deriving DecidableEq

/-- One iteration of the loop in `draw_text` (Handwrite.py lines 77-106),
processing a single line.  Branch order is exactly the source's: empty line,
`drawn_lines` membership, heading marker, previous-line trim comparison,
bold markers, normal text. -/
def drawLine (x headingSize bodySize : Nat) (st : DrawState) (line : String) :
    DrawState :=
  if pyStrip line = "" then
    { st with y := st.y + bodySize + 8 }
  else if line ∈ st.drawn then
    st
  else if pyStartsWith line "## " then
    { y := st.y + headingSize + 12
      drawn := insert line st.drawn
      previousLine := line
      calls := st.calls ++ [⟨pyDrop line 3, headingSize, x, st.y⟩] }
  else if pyStrip st.previousLine = pyStrip line then
    st
  else if pyStartsWith line "**" && pyEndsWith line "**" then
    { y := st.y + bodySize + 8
      drawn := insert line st.drawn
      previousLine := line
      calls := st.calls ++ [⟨pyDropRight (pyDrop line 2) 2, bodySize, x, st.y⟩] }
  else
    { y := st.y + bodySize + 8
      drawn := insert line st.drawn
      previousLine := line
      calls := st.calls ++ [⟨line, bodySize, x, st.y⟩] }

/-- `draw_text(draw, formatted_text, x, y, heading_font, font, font_color,
previous_lines)` (Handwrite.py lines 70-108).  Fonts enter only through
their sizes; the colour is irrelevant to layout and omitted. -/
def draw_text (formatted : String) (x y : Nat) (headingSize bodySize : Nat)
    (previous : Finset String) : DrawState :=
  (splitLines formatted).foldl (drawLine x headingSize bodySize)
    ⟨y, previous, "", []⟩

/-- `text_to_handwriting(text, font_path, output_path, font_color,
previous_texts)` (Handwrite.py lines 110-130), with the font loads assumed to
succeed (the failure there is a filesystem condition outside the layout
engine).  The page is 2000×3000; the heading font size is fixed at 120; the
`st.error` + `return None` path is an `Except.error` with the message. -/
def text_to_handwriting (measW measH : Nat → String → Nat) (text : String)
    (previous : Finset String) : Except String DrawState :=
  match adjust_font_size measW measH text 2000 3000 with
  | none => Except.error "Could not format the text to fit the page."
  | some (formatted, fontSize) =>
    if formatted = "" then Except.error "Could not format the text to fit the page."
    else Except.ok (draw_text formatted 100 100 120 fontSize previous)

end Handwrite

namespace Handwrite

/-! ### Helper lemmas -/

lemma pyStrip_empty : pyStrip "" = "" := rfl

lemma drawLine_y_cases (x hs bs : Nat) (st : DrawState) (l : String) :
    (drawLine x hs bs st l).y = st.y ∨ (drawLine x hs bs st l).y = st.y + bs + 8 ∨
      (drawLine x hs bs st l).y = st.y + hs + 12 := by
  simp only [drawLine]
  split_ifs <;> simp

lemma drawLine_y_le (x hs bs : Nat) (st : DrawState) (l : String) :
    st.y ≤ (drawLine x hs bs st l).y := by
  rcases drawLine_y_cases x hs bs st l with h | h | h <;> omega

lemma foldl_drawLine_y_le (x hs bs : Nat) :
    ∀ ls st, st.y ≤ (List.foldl (drawLine x hs bs) st ls).y := by
  intro ls
  induction ls with
  | nil => intro st; exact le_refl _
  | cons l ls ih =>
    intro st
    simp only [List.foldl_cons]
    exact le_trans (drawLine_y_le x hs bs st l) (ih (drawLine x hs bs st l))

lemma drawLine_drawn_subset (x hs bs : Nat) (st : DrawState) (l : String) :
    st.drawn ⊆ (drawLine x hs bs st l).drawn := by
  simp only [drawLine]
  split_ifs <;> simp [Finset.subset_insert]

lemma foldl_drawLine_drawn_subset (x hs bs : Nat) :
    ∀ ls st, st.drawn ⊆ (List.foldl (drawLine x hs bs) st ls).drawn := by
  intro ls
  induction ls with
  | nil => intro st; exact Finset.Subset.refl _
  | cons l ls ih =>
    intro st
    simp only [List.foldl_cons]
    exact Finset.Subset.trans (drawLine_drawn_subset x hs bs st l)
      (ih (drawLine x hs bs st l))

lemma drawLine_mem_skip (x hs bs : Nat) (st : DrawState) (l : String)
    (h1 : pyStrip l ≠ "") (h2 : l ∈ st.drawn) :
    drawLine x hs bs st l = st := by
  simp only [drawLine]
  rw [if_neg h1, if_pos h2]

lemma drawLine_calls_ne_mem (x hs bs : Nat) (st : DrawState) (l : String)
    (h : (drawLine x hs bs st l).calls ≠ st.calls) :
    l ∈ (drawLine x hs bs st l).drawn := by
  revert h
  simp only [drawLine]
  split_ifs <;> simp

lemma drawLine_prev_skip (x hs bs : Nat) (st : DrawState) (l : String)
    (h1 : pyStrip l ≠ "") (h2 : l ∉ st.drawn)
    (h3 : pyStartsWith l "## " = false)
    (h4 : pyStrip st.previousLine = pyStrip l) :
    drawLine x hs bs st l = st := by
  simp only [drawLine]
  rw [if_neg h1, if_neg h2, if_neg (by simp [h3]), if_pos h4]

lemma fitsGo_mono (mW mH : String → Nat) (w h h' : Nat) (hle : h ≤ h') :
    ∀ ls cur, fitsGo mW mH w h cur ls = true → fitsGo mW mH w h' cur ls = true := by
  intro ls
  induction ls with
  | nil => intro cur _; rfl
  | cons l ls ih =>
    intro cur hfit
    rw [fitsGo] at hfit ⊢
    by_cases hw : mW l > w
    · simp [hw] at hfit
    · by_cases hh : cur + mH l > h
      · simp [hw, hh] at hfit
      · have hh' : ¬ cur + mH l > h' := by omega
        rw [if_neg (by simp [hw, hh])] at hfit
        rw [if_neg (by simp [hw, hh'])]
        exact ih _ hfit

lemma adjustGo_none (measW measH : Nat → String → Nat) (text : String)
    (maxW maxH : Nat) :
    ∀ n, (∀ s, s ≤ n → 10 < s →
        text_fits_on_page (measW s) (measH s)
          (split_text_into_lines (measW s) text (maxW - 200))
          (maxW - 200) (maxH - 200) = false) →
      adjustGo measW measH text maxW maxH n = none := by
  intro n
  induction n with
  | zero => intro _; rfl
  | succ n ih =>
    intro h
    rw [adjustGo]
    by_cases h10 : n + 1 > 10
    · rw [if_pos h10]
      rw [if_neg (by simp [h (n + 1) (le_refl _) h10])]
      exact ih (fun s hs h10s => h s (le_trans hs (Nat.le_succ n)) h10s)
    · rw [if_neg h10]

lemma procWords_no_split (measure : String → Nat) (maxW : Nat) :
    ∀ ws cur acc,
      (∀ n, n ≤ ws.length → 1 ≤ n →
        measure (joinWith " " (cur ++ ws.take n)) ≤ maxW) →
      procWords measure maxW acc cur ws = (acc, cur ++ ws) := by
  intro ws
  induction ws with
  | nil => intro cur acc _; simp [procWords]
  | cons w ws ih =>
    intro cur acc h
    have h1 : measure (joinWith " " (cur ++ [w])) ≤ maxW := by
      have := h 1 (by simp) (le_refl 1)
      simpa using this
    rw [procWords]
    rw [if_neg (by omega)]
    have h2 : ∀ n, n ≤ ws.length → 1 ≤ n →
        measure (joinWith " " ((cur ++ [w]) ++ ws.take n)) ≤ maxW := by
      intro n hn h1n
      have := h (n + 1) (by simp [hn]) (by omega)
      simpa [List.take_succ_cons, List.append_assoc] using this
    rw [ih (cur ++ [w]) acc h2]
    simp

end Handwrite

namespace Handwrite

/-! ### Claim theorems -/

/-- C1: for raw text "## Title\nHello world" on an ample page, the claim says
the pipeline draws "Title" with the heading font.  In fact the wrapper strips
the "## " marker, so the renderer's heading branch never matches and "Title"
is drawn with the body font (size 60 here), like "Hello world".  This theorem
evaluates the pipeline at the failing input: wrapping yields
"Title\nHello world" and both draw calls use the body font size 60, not the
heading size 120. -/
theorem C1_heading_drawn_with_body_font :
    split_text_into_lines String.length "## Title\nHello world" 1000 =
      "Title\nHello world" ∧
    (draw_text (split_text_into_lines String.length "## Title\nHello world" 1000)
        100 100 120 60 ∅).calls =
      [⟨"Title", 60, 100, 100⟩, ⟨"Hello world", 60, 100, 168⟩] := by
  decide

/-- C2 counterexample: a single word "hello" wider (length 5) than
maxWidth 2 is NOT returned alone on its own line: the rollback flushes the
empty current line first, so the output is "\nhello", i.e. an empty line
followed by the word — two lines, not one. -/
theorem C2_oversized_word_counterexample :
    split_text_into_lines String.length "hello" 2 = "\nhello" ∧
    splitLines (split_text_into_lines String.length "hello" 2) = ["", "hello"] ∧
    ("\nhello" : String) ≠ "hello" := by
  decide

/-- C2 amended: for every input consisting of a single word whose measured
width exceeds maxWidth, the wrapper keeps the word unsplit on its own line,
but that line is preceded by one empty line flushed from the emptied current
line; no other lines are introduced. -/
theorem C2_oversized_word_own_line (measure : String → Nat) (w : String)
    (maxWidth : Nat)
    (h0 : splitLines w = [w]) (h1 : pySplitWs w = [w]) (h2 : pyStrip w ≠ "")
    (h3 : pyStartsWith w "## " = false) (h4 : measure w > maxWidth) :
    split_text_into_lines measure w maxWidth = "\n" ++ w := by
  have hpw : procWords measure maxWidth [] [] [w] = ([""], [w]) := by
    rw [procWords, if_pos (by simpa [joinWith] using h4), procWords]
    simp [joinWith]
  unfold split_text_into_lines
  rw [h0]
  simp only [List.foldl_cons, List.foldl_nil]
  unfold wrapStep
  rw [if_neg h2, if_neg (by simp [h3])]
  simp only [h1]
  rw [hpw]
  rfl

/-- C2 witness: the amended statement at the concrete word "hi" with
maxWidth 1. -/
theorem C2_oversized_word_own_line_witness :
    split_text_into_lines String.length "hi" 1 = "\n" ++ "hi" :=
  C2_oversized_word_own_line String.length "hi" 1 (by decide) (by decide)
    (by decide) (by decide) (by decide)

/-- C3: on empty raw text the composer does NOT reject before the adapter:
the adapter runs and succeeds at size 60 with empty formatted text, and the
composer then reports the layout-failure message "Could not format the text
to fit the page." — i.e. the empty input is reported as a layout failure, not
as a caller input error. -/
theorem C3_empty_text_reported_as_layout_failure :
    adjust_font_size (fun _ s => s.length) (fun _ s => s.length) "" 2000 3000 =
      some ("", 60) ∧
    text_to_handwriting (fun _ s => s.length) (fun _ s => s.length) "" ∅ =
      Except.error "Could not format the text to fit the page." :=
  ⟨rfl, rfl⟩

/-- C4: re-splitting the wrapper's output does NOT recover the original
words: `current_line` is not cleared after the end-of-paragraph flush, so the
words of a paragraph are repeated into the next paragraph's lines.  For
"a\nb" (everything fitting easily) the output is "a\na b", whose word list is
["a", "a", "b"] instead of the original ["a", "b"]. -/
theorem C4_word_duplication_across_paragraphs :
    pySplitWs "a\nb" = ["a", "b"] ∧
    split_text_into_lines String.length "a\nb" 100 = "a\na b" ∧
    pySplitWs (split_text_into_lines String.length "a\nb" 100) =
      ["a", "a", "b"] := by
  decide

/-- C5 counterexample: "a  b" has no newline and measures 4 < 100, yet the
wrapper re-joins its words with single spaces and returns "a b" ≠ "a  b". -/
theorem C5_wrap_unchanged_counterexample :
    String.length "a  b" = 4 ∧ (4 : Nat) ≤ 100 ∧
    split_text_into_lines String.length "a  b" 100 = "a b" ∧
    ("a b" : String) ≠ "a  b" := by
  decide

/-- C5 amended: for raw text with no newline that is not blank, does not
start with the heading marker, is already in canonical form (equal to the
single-space join of its words), and all of whose word-prefix joins measure
at most maxWidth (for the monotone pixel-width measure this follows from the
whole line fitting), the wrapper returns the text unchanged. -/
theorem C5_wrap_unchanged (measure : String → Nat) (text : String)
    (maxWidth : Nat)
    (h0 : splitLines text = [text]) (h1 : pyStrip text ≠ "")
    (h2 : pyStartsWith text "## " = false)
    (h3 : joinWith " " (pySplitWs text) = text)
    (h4 : ∀ n, n ≤ (pySplitWs text).length → 1 ≤ n →
      measure (joinWith " " ((pySplitWs text).take n)) ≤ maxWidth) :
    split_text_into_lines measure text maxWidth = text := by
  have hws : pySplitWs text ≠ [] := by
    intro hnil
    apply h1
    rw [← h3, hnil]
    rfl
  unfold split_text_into_lines
  rw [h0]
  simp only [List.foldl_cons, List.foldl_nil]
  unfold wrapStep
  rw [if_neg h1, if_neg (by simp [h2])]
  rw [procWords_no_split measure maxWidth (pySplitWs text) [] []
    (by intro n hn h1n; simpa using h4 n hn h1n)]
  simp only [List.nil_append]
  rw [if_neg (by simpa using hws)]
  simp only [List.nil_append, h3]
  rfl

/-- C5 witness: the amended statement at the concrete text "a b" with
maxWidth 100. -/
theorem C5_wrap_unchanged_witness :
    split_text_into_lines String.length "a b" 100 = "a b" :=
  C5_wrap_unchanged String.length "a b" 100 (by decide) (by decide) (by decide)
    (by decide) (by decide)

/-- C6: if no candidate size from 60 down to 11 makes the wrapped text fit
the (margin-reduced) page, the adapter returns the failure result, and the
composer reports "Could not format the text to fit the page." instead of
producing a page. -/
theorem C6_adapter_failure_reported (measW measH : Nat → String → Nat)
    (text : String)
    (h : ∀ s, s ≤ 60 → 10 < s →
      text_fits_on_page (measW s) (measH s)
        (split_text_into_lines (measW s) text 1800) 1800 2800 = false) :
    adjust_font_size measW measH text 2000 3000 = none ∧
    ∀ previous, text_to_handwriting measW measH text previous =
      Except.error "Could not format the text to fit the page." := by
  have hadj : adjust_font_size measW measH text 2000 3000 = none :=
    adjustGo_none measW measH text 2000 3000 60 h
  refine ⟨hadj, ?_⟩
  intro previous
  unfold text_to_handwriting
  rw [hadj]

/-- C6 witness: a text whose every line is measured 10000 pixels tall never
fits the 2800-pixel budget at any size, so the adapter fails and the composer
reports the failure. -/
theorem C6_adapter_failure_reported_witness :
    adjust_font_size (fun _ s => s.length) (fun _ _ => 10000) "x" 2000 3000 =
      none ∧
    text_to_handwriting (fun _ s => s.length) (fun _ _ => 10000) "x" ∅ =
      Except.error "Could not format the text to fit the page." :=
  ⟨(C6_adapter_failure_reported (fun _ s => s.length) (fun _ _ => 10000) "x"
      (by decide)).1,
   (C6_adapter_failure_reported (fun _ s => s.length) (fun _ _ => 10000) "x"
      (by decide)).2 ∅⟩

/-- C7 counterexample: in the renderer the heading branch precedes the
previous-line comparison, so a heading line that trim-equals the immediately
preceding drawn line (here "## x" after "## x ", with the trimmed forms
equal) is still drawn: both lines produce draw calls, the cursor advances for
both, and both enter the drawn set. -/
theorem C7_heading_skip_counterexample :
    pyStrip "## x " = pyStrip "## x" ∧
    (draw_text "## x \n## x" 100 100 120 60 ∅).calls =
      [⟨"x ", 120, 100, 100⟩, ⟨"x", 120, 100, 232⟩] ∧
    "## x " ∈ (draw_text "## x \n## x" 100 100 120 60 ∅).drawn ∧
    "## x" ∈ (draw_text "## x \n## x" 100 100 120 60 ∅).drawn := by
  decide

/-- C7 amended: a non-empty line already in the drawn set is always skipped
(no draw call, no cursor advance, no set change); a non-empty NON-HEADING
line that trim-equals the immediately preceding drawn line is likewise
skipped (heading-marked lines bypass the previous-line comparison); in
particular, of two consecutive identical non-heading, non-blank lines not
previously drawn, only the first is drawn and the set gains that string
once. -/
theorem C7_duplicate_suppression :
    (∀ x headingSize bodySize st line, pyStrip line ≠ "" →
      (line ∈ st.drawn ∨
        (pyStartsWith line "## " = false ∧
          pyStrip st.previousLine = pyStrip line)) →
      drawLine x headingSize bodySize st line = st) ∧
    ∀ x headingSize bodySize y previous l, pyStrip l ≠ "" →
      pyStartsWith l "## " = false → l ∉ previous →
      (List.foldl (drawLine x headingSize bodySize) ⟨y, previous, "", []⟩
          [l, l]).calls.length = 1 ∧
      (List.foldl (drawLine x headingSize bodySize) ⟨y, previous, "", []⟩
          [l, l]).drawn = insert l previous := by
  constructor
  · intro x hs bs st line h1 h2
    rcases h2 with hmem | ⟨hhead, hprev⟩
    · exact drawLine_mem_skip x hs bs st line h1 hmem
    · by_cases hmem : line ∈ st.drawn
      · exact drawLine_mem_skip x hs bs st line h1 hmem
      · exact drawLine_prev_skip x hs bs st line h1 hmem hhead hprev
  · intro x hs bs y previous l h1 h2 h3
    have hprev0 : ¬ pyStrip (DrawState.mk y previous "" []).previousLine =
        pyStrip l := by
      simpa [pyStrip_empty] using fun h => h1 h.symm
    have hst1 : (drawLine x hs bs ⟨y, previous, "", []⟩ l).drawn =
        insert l previous ∧
        (drawLine x hs bs ⟨y, previous, "", []⟩ l).calls.length = 1 := by
      simp only [drawLine]
      rw [if_neg h1, if_neg h3, if_neg (by simp [h2]), if_neg hprev0]
      split_ifs <;> simp
    have hmem1 : l ∈ (drawLine x hs bs ⟨y, previous, "", []⟩ l).drawn := by
      rw [hst1.1]
      exact Finset.mem_insert_self l previous
    simp only [List.foldl_cons, List.foldl_nil]
    rw [drawLine_mem_skip x hs bs _ l h1 hmem1]
    exact ⟨hst1.2, hst1.1⟩

/-- C7 witness: the amended statement applied at concrete inputs: a line
already in the set is a fixed point of the step, and the two-line duplicate
case draws exactly once. -/
theorem C7_duplicate_suppression_witness :
    drawLine 100 120 60 ⟨0, {"a"}, "", []⟩ "a" = ⟨0, {"a"}, "", []⟩ ∧
    (List.foldl (drawLine 100 120 60) ⟨7, ∅, "", []⟩ ["b", "b"]).calls.length
      = 1 :=
  ⟨C7_duplicate_suppression.1 100 120 60 ⟨0, {"a"}, "", []⟩ "a" (by decide)
      (Or.inl (by decide)),
    (C7_duplicate_suppression.2 100 120 60 7 ∅ "b" (by decide) (by decide)
      (by decide)).1⟩

/-- C8: the fit check is monotonic in maxHeight: a formatted text fitting
within height h also fits within any larger height, for the same measures
and width bound. -/
theorem C8_fits_monotone_in_maxHeight (measW measH : String → Nat)
    (t : String) (w h h' : Nat) (hlt : h < h')
    (hfit : text_fits_on_page measW measH t w h = true) :
    text_fits_on_page measW measH t w h' = true :=
  fitsGo_mono measW measH w h h' (le_of_lt hlt) (splitLines t) 0 hfit

/-- C8 witness: "a" fits a 10×20 box under the character-count measure, so
the theorem gives the fit at height 21. -/
theorem C8_fits_monotone_in_maxHeight_witness :
    text_fits_on_page String.length String.length "a" 10 21 = true :=
  C8_fits_monotone_in_maxHeight String.length String.length "a" 10 20 21
    (by decide) (by decide)

/-- C9: within one render pass the cursor's y coordinate never decreases:
each processed line leaves it unchanged (skipped duplicates) or advances it
by the body line size plus 8 (normal/bold/empty lines) or by the heading
line size plus 12 (headings); consequently the final y of a whole pass is at
least the starting y. -/
theorem C9_cursor_monotone (x headingSize bodySize : Nat) :
    (∀ st line, st.y ≤ (drawLine x headingSize bodySize st line).y ∧
      ((drawLine x headingSize bodySize st line).y = st.y ∨
        (drawLine x headingSize bodySize st line).y = st.y + bodySize + 8 ∨
        (drawLine x headingSize bodySize st line).y = st.y + headingSize + 12)) ∧
    ∀ formatted y previous, y ≤
      (draw_text formatted x y headingSize bodySize previous).y := by
  constructor
  · intro st line
    exact ⟨drawLine_y_le x headingSize bodySize st line,
      drawLine_y_cases x headingSize bodySize st line⟩
  · intro formatted y previous
    exact foldl_drawLine_y_le x headingSize bodySize (splitLines formatted)
      ⟨y, previous, "", []⟩

/-- C10: the renderer only ever adds to the drawn set.  (1) The returned set
is a superset of the supplied one (in the source the update is an in-place
mutation of the very set the caller passed, modelled here by threading the
set through and returning it).  (2) A step that issues a draw call for a
line records that line in the resulting set, and (3) consequently every line
drawn at any point of a pass is in the pass's returned set — so after the
call the caller's set contains every newly drawn line.  (4) A non-blank line
already in the supplied set — for instance one drawn by an earlier call
sharing the same (default) set — is silently skipped wherever it occurs in a
later pass: the pass's outcome is as if that occurrence were absent. -/
theorem C10_drawn_set_superset_and_skip :
    (∀ formatted x y headingSize bodySize previous,
      previous ⊆ (draw_text formatted x y headingSize bodySize previous).drawn) ∧
    (∀ x headingSize bodySize st l,
      (drawLine x headingSize bodySize st l).calls ≠ st.calls →
      l ∈ (drawLine x headingSize bodySize st l).drawn) ∧
    (∀ x headingSize bodySize init ls1 l ls2,
      (drawLine x headingSize bodySize
          (List.foldl (drawLine x headingSize bodySize) init ls1) l).calls ≠
        (List.foldl (drawLine x headingSize bodySize) init ls1).calls →
      l ∈ (List.foldl (drawLine x headingSize bodySize) init
          (ls1 ++ l :: ls2)).drawn) ∧
    ∀ x headingSize bodySize init ls1 l ls2, pyStrip l ≠ "" → l ∈ init.drawn →
      List.foldl (drawLine x headingSize bodySize) init (ls1 ++ l :: ls2) =
        List.foldl (drawLine x headingSize bodySize) init (ls1 ++ ls2) := by
  refine ⟨?_, ?_, ?_, ?_⟩
  · intro formatted x y hs bs previous
    exact foldl_drawLine_drawn_subset x hs bs (splitLines formatted)
      ⟨y, previous, "", []⟩
  · intro x hs bs st l h
    exact drawLine_calls_ne_mem x hs bs st l h
  · intro x hs bs init ls1 l ls2 h
    rw [List.foldl_append, List.foldl_cons]
    exact foldl_drawLine_drawn_subset x hs bs ls2 _
      (drawLine_calls_ne_mem x hs bs _ l h)
  · intro x hs bs init ls1 l ls2 h1 h2
    rw [List.foldl_append, List.foldl_append, List.foldl_cons,
      drawLine_mem_skip x hs bs _ l h1
        (foldl_drawLine_drawn_subset x hs bs ls1 init h2)]

/-- C10 witness: at concrete inputs, a call's result set contains the
supplied set; a step that drew the line "q" put "q" in its set, both as a
single step and inside a pass; and a pass starting from a set containing "z"
treats an occurrence of "z" as absent. -/
theorem C10_drawn_set_superset_and_skip_witness :
    ({"z"} : Finset String) ⊆ (draw_text "w" 100 100 120 60 {"z"}).drawn ∧
    "q" ∈ (drawLine 100 120 60 ⟨0, ∅, "", []⟩ "q").drawn ∧
    "q" ∈ (List.foldl (drawLine 100 120 60) ⟨0, ∅, "", []⟩
        (["a"] ++ "q" :: ["b"])).drawn ∧
    List.foldl (drawLine 100 120 60) ⟨5, {"z"}, "", []⟩ (["a"] ++ "z" :: ["b"]) =
      List.foldl (drawLine 100 120 60) ⟨5, {"z"}, "", []⟩ (["a"] ++ ["b"]) :=
  ⟨C10_drawn_set_superset_and_skip.1 "w" 100 100 120 60 {"z"},
    C10_drawn_set_superset_and_skip.2.1 100 120 60 ⟨0, ∅, "", []⟩ "q"
      (by decide),
    C10_drawn_set_superset_and_skip.2.2.1 100 120 60 ⟨0, ∅, "", []⟩ ["a"] "q"
      ["b"] (by decide),
    C10_drawn_set_superset_and_skip.2.2.2 100 120 60 ⟨5, {"z"}, "", []⟩ ["a"]
      "z" ["b"] (by decide) (by decide)⟩

end Handwrite
